import Mathlib

/-!
Verification of the ethics-automarker rubric engine.

The repository contains two copies of a deterministic marking function
`markEthicsResponse` (one in `src/server.js`, one richer copy in the
unnamed second server file) together with shared text-processing helpers
(`wordCount`, `hasAny`) and static rubric tables.  Answer text is modelled
as a list of characters; every definition below is a direct translation of
the corresponding JavaScript source.
-/

namespace Ethics

/-- Answer text, modelled as a list of characters. -/
abbrev Str := List Char

/-- Convert a Lean string literal into the character-list model. -/
def strL (s : String) : Str := s.data

/-- JavaScript whitespace class `\s` (also the set trimmed by `trim`):
tab, LF, VT, FF, CR, space, NBSP and the Unicode space separators. -/
def isWS (c : Char) : Bool :=
  let n := c.toNat
  n == 9 || n == 10 || n == 11 || n == 12 || n == 13 || n == 32 ||
  n == 160 || n == 0x1680 || (0x2000 ≤ n && n ≤ 0x200a) ||
  n == 0x2028 || n == 0x2029 || n == 0x202f || n == 0x205f ||
  n == 0x3000 || n == 0xfeff

/-- JavaScript regex word-character class `\w` = `[A-Za-z0-9_]`. -/
def isWordChar (c : Char) : Bool :=
  let n := c.toNat
  (97 ≤ n && n ≤ 122) || (65 ≤ n && n ≤ 90) || (48 ≤ n && n ≤ 57) || n == 95

/-- `String.prototype.toLowerCase` (ASCII range, which covers every
trigger substring in the rubric tables). -/
def lowerL (s : Str) : Str := s.map Char.toLower

/-- `String.prototype.trim`: drop whitespace from both ends. -/
def trim (s : Str) : Str := ((s.dropWhile isWS).reverse.dropWhile isWS).reverse

/-- `text.split(/\s+/)`: split on maximal runs of whitespace.  A leading or
trailing run produces an empty token, exactly as in JavaScript. -/
def splitWs : Str → List Str
  | [] => [[]]
  | c :: cs =>
    if isWS c then
      match cs with
      | [] => [[], []]
      | d :: _ => if isWS d then splitWs cs else [] :: splitWs cs
    else
      match splitWs cs with
      | [] => [[c]]
      | w :: ws => (c :: w) :: ws

/-- `.filter(Boolean).length` on a token list: count the non-empty tokens. -/
def countNE (l : List Str) : Nat := (l.filter (fun w => !w.isEmpty)).length

/-- `wordCount` from both server files: trim; empty means 0; otherwise
split on whitespace runs and count the non-empty tokens. -/
def wordCount (text : Str) : Nat :=
  let t := trim text
  if t.isEmpty then 0 else countNE (splitWs t)

/-- Modelled from the spec: state machine counting maximal non-whitespace
runs (the boolean records whether the scan is currently inside a run).
This is the spec's characterisation of word counting, to be compared with
the source-derived `wordCount`. -/
def specRunCountAux : Bool → Str → Nat
  | _, [] => 0
  | inRun, c :: cs =>
    if isWS c then specRunCountAux false cs
    else (if inRun then 0 else 1) + specRunCountAux true cs

/-- Modelled from the spec: the number of maximal non-whitespace runs. -/
def specRunCount (s : Str) : Nat := specRunCountAux false s

/-- Does the haystack start with the needle (character-exact)? -/
def startsWithL : Str → Str → Bool
  | _, [] => true
  | [], _ :: _ => false
  | c :: cs, d :: ds => (c == d) && startsWithL cs ds

/-- `String.prototype.includes`: does the needle occur as a contiguous
substring of the haystack? -/
def hasSub : Str → Str → Bool
  | [], sub => sub.isEmpty
  | c :: cs, sub => startsWithL (c :: cs) sub || hasSub cs sub

/-- `hasAny` from both server files: lower-case the text, then test whether
any needle occurs as a substring. -/
def hasAny (text : Str) (needles : List Str) : Bool :=
  needles.any (fun n => hasSub (lowerL text) n)

/-- Does the (lower-cased) text start with the given lower-case pattern,
comparing case-insensitively as the regex `i` flag does? -/
def startsWithCI : Str → Str → Bool
  | _, [] => true
  | [], _ :: _ => false
  | c :: cs, p :: ps => (Char.toLower c == p) && startsWithCI cs ps

/-- A `\b` word boundary holds after a pattern when the next character (if
any) is not a word character. -/
def noWordCharHead : Str → Bool
  | [] => true
  | c :: _ => !isWordChar c

/-- The five alternatives of the action-marker regex
`/\baction\b|\bshould\b|\bmust\b|\bneed to\b|\brecommend\b/gi`, in
alternation order. -/
def ACTION_MARKER_WORDS : List Str :=
  [strL "action", strL "should", strL "must", strL "need to", strL "recommend"]

/-- Try the regex alternatives in order at the current position: a match
needs a word boundary before (previous character not a word character), a
case-insensitive occurrence of the pattern, and a word boundary after.
Returns the length of the first match, if any. -/
def findMatchLen (prevIsWord : Bool) (s : Str) : List Str → Option Nat
  | [] => none
  | p :: ps =>
    if !prevIsWord && startsWithCI s p && noWordCharHead (s.drop p.length) then
      some p.length
    else findMatchLen prevIsWord s ps

/-- Global regex scan: walk the text left to right, counting
non-overlapping matches; after a match the scan resumes past it.  The fuel
argument starts at the text length and dominates the number of steps. -/
def countMatchesAux : Nat → Bool → Str → Nat
  | 0, _, _ => 0
  | _, _, [] => 0
  | Nat.succ fuel, prevW, c :: cs =>
    match findMatchLen prevW (c :: cs) ACTION_MARKER_WORDS with
    | some n => 1 + countMatchesAux fuel true (List.drop (n - 1) cs)
    | none => countMatchesAux fuel (isWordChar c) cs

/-- `(answerText.match(/\baction\b|\bshould\b|\bmust\b|\bneed to\b|\brecommend\b/gi) || []).length`:
the number of whole-word action-indicator occurrences in the raw text. -/
def actionMarkers (orig : Str) : Nat := countMatchesAux orig.length false orig

/-- A failure-detection theme: a key plus its trigger substrings. -/
structure Theme where
  key : Str
  hits : List Str

/-- Outcome of one rubric criterion: points awarded, criterion level
(2 = Secure, 1 = Developing, 0 = Missing) and pushed improvement notes. -/
structure CritEval where
  pts : Nat
  level : Nat
  notes : List Str

/-- One entry of the fixed `tags` array (name plus ok/mid/bad status). -/
structure Tag where
  name : Str
  status : Str

/-- The fixed 5-row diagnostic grid (field `structureRow` models the
source's `structure` key, which is a Lean keyword). -/
structure Grid where
  ethical : Str
  impact : Str
  legal : Str
  recs : Str
  structureRow : Str

/-- One framework reference entry (`caseText` models the source's `case`
key, which is a Lean keyword). -/
structure FrameworkEntry where
  expectation : Str
  caseText : Str

/-- The fixed `FRAMEWORK` lookup of regulatory/ethical frameworks. -/
structure Framework where
  gdpr : FrameworkEntry
  unesco : FrameworkEntry
  ofsted : FrameworkEntry
  jisc : FrameworkEntry

/-- The result object of the richer marker (unnamed server file): fields
absent or `null` in the JavaScript object are `none` here. -/
structure MarkResult where
  gated : Bool
  wordCount : Nat
  message : Option Str
  score : Option Nat
  feedback : Option Str
  strengths : Option (List Str)
  tags : Option (List Tag)
  grid : Option Grid
  framework : Option Framework
  modelAnswer : Option Str

/-- The result object of the `src/server.js` marker (its gated branch also
carries a `bands: null` field). -/
structure ServerResult where
  gated : Bool
  wordCount : Nat
  message : Option Str
  score : Option Nat
  bands : Option Unit
  feedback : Option Str
  modelAnswer : Option Str

/-- The hard-gate message returned for answers under 50 words. -/
def GATE_MESSAGE : Str :=
  strL "Please add to your answer.\nThis response is too short to demonstrate evaluation.\nAim for 100–250 words and address all parts of the question."

/-- The fixed model answer, shown only once the 50-word gate is passed
(identical text in both server files). -/
def MODEL_ANSWER : Str :=
  strL "1. Key ethical or legal failures\n\nOne major failure was the use of facial recognition without clear public consent or transparency. Residents were not properly informed about how their data would be collected or used. A second failure was the lack of sufficient testing for bias and accuracy before deployment, which increased the risk of misidentification.\n\n2. Why these failures mattered\n\nThese failures mattered because facial recognition can directly affect people’s rights and wellbeing. Individuals could be wrongly identified, questioned, or monitored, causing stress and harm. The lack of transparency also damaged public trust, as people felt watched rather than protected. When AI systems are introduced without openness or safeguards, they risk reinforcing unfairness and discrimination, particularly for certain groups.\n\n3. What should have been done differently\n\nFirst, the council should have completed a Data Protection Impact Assessment (DPIA) and clearly explained the system to the public, including how data would be stored and protected. Second, the system should have been independently tested for bias and accuracy before use, with clear limits on where and when it could operate. These steps would have supported fairer, more responsible use of AI."

def NOTE_FAILURES_ONE : Str :=
  strL "Failures: Identify two clear ethical/legal failures (not just one)."

def NOTE_FAILURES_ZERO : Str :=
  strL "Failures: Identify two clear ethical/legal failures."

def NOTE_IMPACT : Str :=
  strL "Impact: Explain why the failures mattered (harm to people and/or trust/fairness)."

def NOTE_RECS_ONE : Str :=
  strL "Recommendations: Give two practical actions the council should take (not vague)."

def NOTE_RECS_ZERO : Str :=
  strL "Recommendations: Provide two practical actions the council should take."

def NOTE_LANG : Str :=
  strL "Language: Use at least one key term (e.g., GDPR, consent, bias, transparency, DPIA)."

def NOTE_STRUCTURE : Str :=
  strL "Structure: Use the template headings so your evaluation is easy to follow."

def NOTE_SHORT : Str :=
  strL "Length: Aim for 100–250 words (yours is a bit short)."

def NOTE_LONG : Str :=
  strL "Length: Aim for 100–250 words (yours is a bit long)."

def FEEDBACK_STRONG : Str :=
  strL "Strong response — you identified key issues, explained impact, and gave practical improvements."

def S_FAILURES : Str :=
  strL "You identified at least two relevant ethical/legal failures."

def S_IMPACT : Str :=
  strL "You explained why the issues matter for people and/or public trust."

def S_RECS : Str :=
  strL "You suggested practical actions to improve responsible use of AI."

def S_TERMS : Str :=
  strL "You used appropriate ethical/legal terms (e.g., consent, bias, GDPR)."

def S_STRUCTURE : Str :=
  strL "Your response followed a clear structure, which makes your evaluation easy to follow."

/-- The seven recommendation theme groups (identical in both files). -/
def REC_THEMES : List (List Str) :=
  [ [strL "dpia", strL "impact assessment"],
    [strL "consent", strL "transparen", strL "public notice"],
    [strL "bias", strL "fairness testing", strL "independent testing"],
    [strL "accuracy testing", strL "pilot", strL "validate"],
    [strL "data minim", strL "retention", strL "delete"],
    [strL "security", strL "access control", strL "encryption"],
    [strL "limits", strL "where", strL "when", strL "policy", strL "governance"] ]

/-- `recHits`: number of recommendation theme groups with a match. -/
def recHits (t : Str) : Nat := REC_THEMES.countP (fun hits => hasAny t hits)

def mentionsIndividuals (t : Str) : Bool :=
  hasAny t [strL "individual", strL "people", strL "resident", strL "person", strL "community"]

def mentionsHarm (t : Str) : Bool :=
  hasAny t [strL "harm", strL "stress", strL "wrongly", strL "misidentif", strL "discrimin", strL "unfair", strL "rights"]

def mentionsTrust (t : Str) : Bool :=
  hasAny t [strL "trust", strL "confidence", strL "public trust", strL "reputation", strL "legitimacy"]

/-- `usesTerms`: presence of any fixed ethical/legal term. -/
def usesTerms (t : Str) : Bool :=
  hasAny t [strL "gdpr", strL "dpia", strL "data protection", strL "privacy", strL "consent", strL "bias", strL "fairness", strL "transparency"]

/-- `hasStructure`: template headings, numbered markers, or section phrases. -/
def hasStructure (t : Str) : Bool :=
  hasAny t [strL "failure 1", strL "failure 2"] ||
  hasAny t [strL "1)", strL "2)", strL "3)"] ||
  hasAny t [strL "key ethical", strL "why these failures", strL "what should have"]

/-- Recommendations criterion (2 marks), identical logic in both files:
Secure needs two theme groups and two action markers. -/
def recsEval (t orig : Str) : CritEval :=
  if 2 ≤ recHits t ∧ 2 ≤ actionMarkers orig then
    { pts := 2, level := 2, notes := [] }
  else if 1 ≤ recHits t then
    { pts := 1, level := 1, notes := [NOTE_RECS_ONE] }
  else
    { pts := 0, level := 0, notes := [NOTE_RECS_ZERO] }

/-- Ethical/legal language criterion (1 mark), identical in both files. -/
def langEval (t : Str) : CritEval :=
  if usesTerms t then { pts := 1, level := 2, notes := [] }
  else { pts := 0, level := 0, notes := [NOTE_LANG] }

/-- Structure criterion (1 mark): scoring is identical in both files; the
richer file additionally records level Developing (1) when absent. -/
def structureEval (t : Str) : CritEval :=
  if hasStructure t then { pts := 1, level := 2, notes := [] }
  else { pts := 0, level := 1, notes := [NOTE_STRUCTURE] }

/-- The non-scored length advisories (identical in both files). -/
def lengthNotes (wc : Nat) : List Str :=
  (if wc < 100 then [NOTE_SHORT] else []) ++ (if 250 < wc then [NOTE_LONG] else [])

namespace App

/-- `FAILURE_THEMES` of the unnamed server file (its security/storage
theme also lists "encryption"). -/
def FAILURE_THEMES : List Theme :=
  [ ⟨strL "consent/transparency",
     [strL "consent", strL "transparent", strL "transparency", strL "informed", strL "notice", strL "public informed"]⟩,
    ⟨strL "gdpr/lawful basis",
     [strL "gdpr", strL "lawful", strL "lawful basis", strL "data protection", strL "dpa", strL "privacy"]⟩,
    ⟨strL "bias/fairness",
     [strL "bias", strL "biased", strL "fair", strL "fairness", strL "discrimin", strL "equal"]⟩,
    ⟨strL "accuracy/misidentification",
     [strL "accur", strL "misidentif", strL "false positive", strL "false negative", strL "wrongly"]⟩,
    ⟨strL "security/storage",
     [strL "secure", strL "security", strL "stored", strL "storage", strL "breach", strL "access control", strL "encryption"]⟩,
    ⟨strL "dpia/governance",
     [strL "dpia", strL "impact assessment", strL "governance", strL "oversight", strL "audit"]⟩ ]

/-- Number of distinct failure themes detected in the text. -/
def themesFound (t : Str) : Nat := FAILURE_THEMES.countP (fun th => hasAny t th.hits)

/-- Failures criterion (3 marks). -/
def failuresEval (t : Str) : CritEval :=
  if 2 ≤ themesFound t then { pts := 3, level := 2, notes := [] }
  else if themesFound t = 1 then { pts := 1, level := 1, notes := [NOTE_FAILURES_ONE] }
  else { pts := 0, level := 0, notes := [NOTE_FAILURES_ZERO] }

/-- `mentionsFairness` (this file also lists "equal"). -/
def mentionsFairness (t : Str) : Bool :=
  hasAny t [strL "fairness", strL "discrimin", strL "unfair", strL "equal"]

/-- Impact criterion (3 marks): multi-angle 3, partial 2, minimal 1.  This
file's partial branch also accepts a fairness-only mention. -/
def impactEval (t : Str) : CritEval :=
  if (mentionsIndividuals t && mentionsHarm t) && (mentionsTrust t || mentionsFairness t) then
    { pts := 3, level := 2, notes := [] }
  else if (mentionsIndividuals t && mentionsHarm t) || mentionsTrust t || mentionsFairness t then
    { pts := 2, level := 1, notes := [] }
  else
    { pts := 1, level := 0, notes := [NOTE_IMPACT] }

/-- The un-clamped total: the sum of the five criterion point awards. -/
def rawScore (answerText : Str) : Nat :=
  (failuresEval (lowerL answerText)).pts + (impactEval (lowerL answerText)).pts +
    (recsEval (lowerL answerText) answerText).pts +
    (langEval (lowerL answerText)).pts + (structureEval (lowerL answerText)).pts

/-- `statusFromLevel`: grid marker for a criterion level. -/
def statusFromLevel (level : Nat) : Str :=
  if 2 ≤ level then strL "✓ Secure"
  else if level = 1 then strL "◐ Developing"
  else strL "✗ Missing"

/-- `tagStatus`: ok/mid/bad UI status for a criterion level. -/
def tagStatus (level : Nat) : Str :=
  if 2 ≤ level then strL "ok"
  else if level = 1 then strL "mid"
  else strL "bad"

/-- The fixed `FRAMEWORK` reference data of the unnamed server file. -/
def FRAMEWORK : Framework :=
  { gdpr :=
      ⟨strL "UK GDPR Article 5 – Lawfulness, fairness and transparency (data protection principles).",
       strL "SmartTown’s use of biometric data without clear public transparency or lawful basis shows what can go wrong when personal data is processed without clear safeguards."⟩,
    unesco :=
      ⟨strL "UNESCO Recommendation on the Ethics of Artificial Intelligence (adopted 2021) – human rights, dignity, transparency and fairness across the AI lifecycle.",
       strL "The case illustrates how facial recognition can undermine rights and dignity when it is not transparent, not accountable, or produces biased outcomes."⟩,
    ofsted :=
      ⟨strL "Ofsted – expectations for responsible use of technology/AI: ethical, safe, transparent practice and management of risks (e.g., bias, fairness, data protection).",
       strL "SmartTown lacked transparency and safeguards, highlighting why organisations must evaluate risks and ensure AI is used responsibly and fairly."⟩,
    jisc :=
      ⟨strL "Jisc – principles for responsible AI use in education: fair, safe, accountable and transparent deployment.",
       strL "The case shows why risk assessment, fairness checks, and clear governance matter before deploying AI that affects people."⟩ }

/-- `markEthicsResponse` of the unnamed server file: hard gate under 50
words, otherwise rubric score, strengths, tags, grid, framework content
and the model answer. -/
def markEthicsResponse (answerText : Str) : MarkResult :=
  let wc := wordCount answerText
  if wc < 50 then
    { gated := true, wordCount := wc, message := some GATE_MESSAGE,
      score := none, feedback := none, strengths := none, tags := none,
      grid := none, framework := none, modelAnswer := none }
  else
    let t := lowerL answerText
    let fE := failuresEval t
    let iE := impactEval t
    let rE := recsEval t answerText
    let lE := langEval t
    let sE := structureEval t
    let notes := fE.notes ++ iE.notes ++ rE.notes ++ lE.notes ++ sE.notes ++ lengthNotes wc
    let score := max 0 (min 10 (rawScore answerText))
    let strengths :=
      (if 2 ≤ fE.level then [S_FAILURES] else []) ++
      (if 1 ≤ iE.level then [S_IMPACT] else []) ++
      (if 1 ≤ rE.level then [S_RECS] else []) ++
      (if usesTerms t then [S_TERMS] else []) ++
      (if hasStructure t then [S_STRUCTURE] else [])
    let strengthsTop := strengths.take 3
    let tags : List Tag :=
      [ ⟨strL "Ethical awareness", tagStatus (min 2 (max fE.level iE.level))⟩,
        ⟨strL "Legal awareness",
         tagStatus (if 2 ≤ lE.level then 2
                    else if hasAny t [strL "consent", strL "privacy", strL "data protection"] then 1 else 0)⟩,
        ⟨strL "Impact evaluation",
         tagStatus (if 2 ≤ iE.level then 2 else if iE.level = 1 then 1 else 0)⟩,
        ⟨strL "Practical judgement",
         tagStatus (if 2 ≤ rE.level then 2 else if rE.level = 1 then 1 else 0)⟩,
        ⟨strL "Structure & clarity",
         tagStatus (if 2 ≤ sE.level then 2 else if sE.level = 1 then 1 else 0)⟩ ]
    let grid : Grid :=
      { ethical := statusFromLevel fE.level,
        impact := statusFromLevel (if 2 ≤ iE.level then 2 else if iE.level = 1 then 1 else 0),
        legal := statusFromLevel (if 2 ≤ lE.level then 2 else if usesTerms t then 1 else 0),
        recs := statusFromLevel rE.level,
        structureRow := statusFromLevel sE.level }
    let feedback :=
      if notes.isEmpty then FEEDBACK_STRONG
      else strL "To improve:\n- " ++ List.intercalate (strL "\n- ") notes
    { gated := false, wordCount := wc, message := none, score := some score,
      feedback := some feedback, strengths := some strengthsTop,
      tags := some tags, grid := some grid, framework := some FRAMEWORK,
      modelAnswer := some MODEL_ANSWER }

end App

namespace Server

/-- `failureThemes` of `src/server.js` (its security/storage theme lacks
"encryption"). -/
def FAILURE_THEMES : List Theme :=
  [ ⟨strL "consent/transparency",
     [strL "consent", strL "transparent", strL "transparency", strL "informed", strL "notice", strL "public informed"]⟩,
    ⟨strL "gdpr/lawful basis",
     [strL "gdpr", strL "lawful", strL "lawful basis", strL "data protection", strL "dpa", strL "privacy"]⟩,
    ⟨strL "bias/fairness",
     [strL "bias", strL "biased", strL "fair", strL "fairness", strL "discrimin", strL "equal"]⟩,
    ⟨strL "accuracy/misidentification",
     [strL "accur", strL "misidentif", strL "false positive", strL "false negative", strL "wrongly"]⟩,
    ⟨strL "security/storage",
     [strL "secure", strL "security", strL "stored", strL "storage", strL "breach", strL "access control"]⟩,
    ⟨strL "dPIA/governance",
     [strL "dpia", strL "impact assessment", strL "governance", strL "oversight", strL "audit"]⟩ ]

/-- Number of distinct failure themes detected in the text. -/
def themesFound (t : Str) : Nat := FAILURE_THEMES.countP (fun th => hasAny t th.hits)

/-- Failures criterion (3 marks): points and pushed notes. -/
def failuresEval (t : Str) : Nat × List Str :=
  if 2 ≤ themesFound t then (3, [])
  else if themesFound t = 1 then (1, [NOTE_FAILURES_ONE])
  else (0, [NOTE_FAILURES_ZERO])

/-- Impact criterion (3 marks): this file's partial branch tests only
`(individuals AND harm) OR trust`, with no fairness alternative. -/
def impactEval (t : Str) : Nat × List Str :=
  if (mentionsIndividuals t && mentionsHarm t) &&
      (mentionsTrust t || hasAny t [strL "fairness", strL "discrimin", strL "unfair"]) then (3, [])
  else if (mentionsIndividuals t && mentionsHarm t) || mentionsTrust t then (2, [])
  else (1, [NOTE_IMPACT])

/-- Recommendations criterion (2 marks), same logic as the richer file. -/
def recsEval (t orig : Str) : Nat × List Str :=
  if 2 ≤ recHits t ∧ 2 ≤ actionMarkers orig then (2, [])
  else if 1 ≤ recHits t then (1, [NOTE_RECS_ONE])
  else (0, [NOTE_RECS_ZERO])

/-- Ethical/legal language criterion (1 mark). -/
def langEval (t : Str) : Nat × List Str :=
  if usesTerms t then (1, []) else (0, [NOTE_LANG])

/-- Structure criterion (1 mark). -/
def structureEval (t : Str) : Nat × List Str :=
  if hasStructure t then (1, []) else (0, [NOTE_STRUCTURE])

/-- The un-clamped total: the sum of the five criterion point awards. -/
def rawScore (answerText : Str) : Nat :=
  (failuresEval (lowerL answerText)).1 + (impactEval (lowerL answerText)).1 +
    (recsEval (lowerL answerText) answerText).1 +
    (langEval (lowerL answerText)).1 + (structureEval (lowerL answerText)).1

/-- `markEthicsResponse` of `src/server.js`: hard gate under 50 words,
otherwise score, feedback and the model answer. -/
def markEthicsResponse (answerText : Str) : ServerResult :=
  let wc := wordCount answerText
  if wc < 50 then
    { gated := true, wordCount := wc, message := some GATE_MESSAGE,
      score := none, bands := none, feedback := none, modelAnswer := none }
  else
    let t := lowerL answerText
    let notes := (failuresEval t).2 ++ (impactEval t).2 ++ (recsEval t answerText).2 ++
      (langEval t).2 ++ (structureEval t).2 ++ lengthNotes wc
    let score := max 0 (min 10 (rawScore answerText))
    let feedback :=
      if notes.isEmpty then FEEDBACK_STRONG
      else strL "To improve:\n- " ++ List.intercalate (strL "\n- ") notes
    { gated := false, wordCount := wc, message := none, score := some score,
      bands := none, feedback := some feedback, modelAnswer := some MODEL_ANSWER }

end Server

/-! Concrete inputs used by witnesses and counterexamples. -/

/-- A 50-word answer of neutral filler words ("z" fifty times). -/
def W50 : Str := List.intercalate (strL " ") (List.replicate 50 (strL "z"))

/-- A gated two-word answer. -/
def WSHORT : Str := strL "too short"

/-- A 60-word answer containing the substrings "consent", "transparency",
"bias", "fairness", "trust", "residents", "DPIA", "action", "should" and
the numbered headings "1)", "2)", "3)", padded with neutral filler. -/
def C4x : Str :=
  strL "1) consent transparency bias fairness trust residents DPIA action should 2) 3) " ++
    List.intercalate (strL " ") (List.replicate 48 (strL "z"))

/-- A 52-word ungated answer on which the two marker copies disagree:
"encryption" is a security/storage trigger only in the richer file. -/
def C5x : Str := W50 ++ strL " encryption consent"

/-- A sentence triggering exactly the consent/transparency and
bias/fairness failure themes. -/
def C8add : Str := strL " consent bias"

/-! Lemmas relating `wordCount` (trim / split / filter, as in the source)
to `specRunCount` (the spec's count of maximal non-whitespace runs).  The
whitespace test is kept opaque throughout this development: every proof
only cases on its boolean value. -/

section WordCountLemmas

attribute [local irreducible] isWS

/-- Dropping leading whitespace does not change the run count. -/
theorem specRunCountAux_dropWhile (s : Str) :
    specRunCountAux false (s.dropWhile isWS) = specRunCountAux false s := by
  induction s with
  | nil => rfl
  | cons c cs ih =>
    cases hc : isWS c with
    | true => simp [List.dropWhile_cons, hc, specRunCountAux, ih]
    | false => simp [List.dropWhile_cons, hc]

/-- An all-whitespace string has no runs, from any scan state. -/
theorem specRunCountAux_allWS :
    ∀ post : Str, (∀ c ∈ post, isWS c = true) → ∀ b, specRunCountAux b post = 0 := by
  intro post
  induction post with
  | nil => intro _ b; rfl
  | cons c cs ih =>
    intro hp b
    have hc : isWS c = true := hp c (List.mem_cons_self ..)
    simp [specRunCountAux, hc, ih (fun d hd => hp d (List.mem_cons_of_mem _ hd))]

/-- Appending trailing whitespace does not change the run count. -/
theorem specRunCountAux_append_allWS (s post : Str) (hp : ∀ c ∈ post, isWS c = true) :
    ∀ b, specRunCountAux b (s ++ post) = specRunCountAux b s := by
  induction s with
  | nil => intro b; simpa using specRunCountAux_allWS post hp b
  | cons c cs ih =>
    intro b
    cases hc : isWS c with
    | true => simp [specRunCountAux, hc, ih]
    | false => simp [specRunCountAux, hc, ih]

/-- Prepending leading whitespace does not change the run count. -/
theorem specRunCountAux_ws_prefix :
    ∀ pre : Str, (∀ c ∈ pre, isWS c = true) →
      ∀ s : Str, specRunCountAux false (pre ++ s) = specRunCountAux false s := by
  intro pre
  induction pre with
  | nil => intro _ s; rfl
  | cons c cs ih =>
    intro hp s
    have hc : isWS c = true := hp c (List.mem_cons_self ..)
    simp [specRunCountAux, hc, ih (fun d hd => hp d (List.mem_cons_of_mem _ hd)) s]

/-- Widening an internal whitespace run by one character does not change
the run count. -/
theorem specRunCountAux_widen :
    ∀ (xs : Str) (b : Bool) (c c' : Char) (ys : Str), isWS c = true → isWS c' = true →
      specRunCountAux b (xs ++ c :: c' :: ys) = specRunCountAux b (xs ++ c :: ys) := by
  intro xs
  induction xs with
  | nil => intro b c c' ys hc hc'; simp [specRunCountAux, hc, hc']
  | cons x xs ih =>
    intro b c c' ys hc hc'
    cases hx : isWS x with
    | true => simp [specRunCountAux, hx, ih _ _ _ _ hc hc']
    | false => simp [specRunCountAux, hx, ih _ _ _ _ hc hc']

/-- Every character kept by `takeWhile isWS` is whitespace. -/
theorem isWS_of_mem_takeWhile :
    ∀ (l : Str) (c : Char), c ∈ l.takeWhile isWS → isWS c = true := by
  intro l
  induction l with
  | nil => intro c h; simp [List.takeWhile] at h
  | cons d ds ih =>
    intro c h
    cases hd : isWS d with
    | true =>
      rw [List.takeWhile_cons, if_pos hd] at h
      rcases List.mem_cons.mp h with h1 | h2
      · exact h1 ▸ hd
      · exact ih c h2
    | false => rw [List.takeWhile_cons, if_neg (by simp [hd])] at h; simp at h

/-- Trimming does not change the run count. -/
theorem specRunCount_trim (s : Str) : specRunCount (trim s) = specRunCount s := by
  unfold trim specRunCount
  have h1 : specRunCountAux false (s.dropWhile isWS) = specRunCountAux false s :=
    specRunCountAux_dropWhile s
  have hdecomp : s.dropWhile isWS =
      ((s.dropWhile isWS).reverse.dropWhile isWS).reverse ++
        ((s.dropWhile isWS).reverse.takeWhile isWS).reverse := by
    conv_lhs =>
      rw [← List.reverse_reverse (s.dropWhile isWS),
        ← List.takeWhile_append_dropWhile (p := isWS) (l := (s.dropWhile isWS).reverse)]
    rw [List.reverse_append]
  have hpost : ∀ c ∈ ((s.dropWhile isWS).reverse.takeWhile isWS).reverse, isWS c = true :=
    fun c hc => isWS_of_mem_takeWhile _ c (List.mem_reverse.mp hc)
  calc specRunCountAux false (((s.dropWhile isWS).reverse.dropWhile isWS).reverse)
      = specRunCountAux false
          (((s.dropWhile isWS).reverse.dropWhile isWS).reverse ++
            ((s.dropWhile isWS).reverse.takeWhile isWS).reverse) :=
        (specRunCountAux_append_allWS _ _ hpost false).symm
    _ = specRunCountAux false (s.dropWhile isWS) := by rw [← hdecomp]
    _ = specRunCountAux false s := h1

/-- Head decomposition of the run count: one run is charged for a
non-whitespace head segment. -/
theorem specRunCountAux_false_eq (s : Str) :
    specRunCountAux false s =
      (if (s.takeWhile (fun c => !isWS c)).isEmpty then 0 else 1) + specRunCountAux true s := by
  cases s with
  | nil => rfl
  | cons c cs =>
    cases hc : isWS c with
    | true => simp [specRunCountAux, hc, List.takeWhile_cons]
    | false => simp [specRunCountAux, hc, List.takeWhile_cons]

/-- Counting non-empty tokens, cons step. -/
theorem countNE_cons (w : Str) (l : List Str) :
    countNE (w :: l) = (if w.isEmpty then 0 else 1) + countNE l := by
  cases hw : w.isEmpty with
  | true => simp [countNE, List.filter, hw]
  | false => simp [countNE, List.filter, hw]; omega

/-- Structure of `splitWs`: the first token is the leading non-whitespace
segment, and the remaining tokens carry the runs seen from inside a run. -/
theorem splitWs_spec :
    ∀ s : Str, ∃ rest, splitWs s = (s.takeWhile (fun c => !isWS c)) :: rest ∧
      countNE rest = specRunCountAux true s := by
  intro s
  induction s with
  | nil => exact ⟨[], rfl, rfl⟩
  | cons c cs ih =>
    cases hc : isWS c with
    | true =>
      cases cs with
      | nil =>
        refine ⟨[[]], ?_, ?_⟩
        · simp [splitWs, hc, List.takeWhile_cons]
        · simp [countNE, specRunCountAux, hc]
      | cons d cs' =>
        obtain ⟨rest, hr, hcnt⟩ := ih
        cases hd : isWS d with
        | true =>
          refine ⟨rest, ?_, ?_⟩
          · have : splitWs (c :: d :: cs') = splitWs (d :: cs') := by
              simp [splitWs, hc, hd]
            rw [this, hr]
            simp [List.takeWhile_cons, hc, hd]
          · rw [hcnt]; simp [specRunCountAux, hc, hd]
        | false =>
          refine ⟨splitWs (d :: cs'), ?_, ?_⟩
          · have : splitWs (c :: d :: cs') = [] :: splitWs (d :: cs') := by
              simp [splitWs, hc, hd]
            rw [this]; simp [List.takeWhile_cons, hc]
          · rw [hr, countNE_cons, hcnt]
            simp [List.takeWhile_cons, hd, specRunCountAux, hc]
    | false =>
      obtain ⟨rest, hr, hcnt⟩ := ih
      refine ⟨rest, ?_, ?_⟩
      · have : splitWs (c :: cs) = (c :: cs.takeWhile (fun c => !isWS c)) :: rest := by
          simp [splitWs, hc, hr]
        rw [this]; simp [List.takeWhile_cons, hc]
      · rw [hcnt]; simp [specRunCountAux, hc]

/-- The filtered token count of `splitWs` is exactly the run count. -/
theorem countNE_splitWs (s : Str) : countNE (splitWs s) = specRunCountAux false s := by
  obtain ⟨rest, hr, hcnt⟩ := splitWs_spec s
  rw [hr, countNE_cons, hcnt, specRunCountAux_false_eq]

/-- `wordCount` (source pipeline) equals the spec's maximal-run count. -/
theorem wordCount_eq_specRunCount (s : Str) : wordCount s = specRunCount s := by
  unfold wordCount
  cases ht : (trim s).isEmpty with
  | true =>
    have h0 : trim s = [] := List.isEmpty_iff.mp ht
    have := specRunCount_trim s
    rw [h0] at this
    simpa [ht] using this
  | false =>
    have := specRunCount_trim s
    simp only [ht, if_false, Bool.false_eq_true]
    rw [countNE_splitWs]
    exact this

end WordCountLemmas

/-! Bounds for the five criterion evaluators. -/

theorem failuresEval_pts_le (t : Str) : (App.failuresEval t).pts ≤ 3 := by
  unfold App.failuresEval
  split
  · decide
  · split <;> decide

theorem impactEval_pts_bounds (t : Str) :
    1 ≤ (App.impactEval t).pts ∧ (App.impactEval t).pts ≤ 3 := by
  unfold App.impactEval
  split
  · decide
  · split <;> decide

theorem recsEval_pts_le (t orig : Str) : (recsEval t orig).pts ≤ 2 := by
  unfold recsEval
  split
  · decide
  · split <;> decide

theorem langEval_pts_le (t : Str) : (langEval t).pts ≤ 1 := by
  unfold langEval
  split <;> decide

theorem structureEval_pts_le (t : Str) : (structureEval t).pts ≤ 1 := by
  unfold structureEval
  split <;> decide

/-! The claims. -/

/-- C1: for every input whose word count is below 50, the marker returns a
gated result: gated is true, the word count is reported, the message
contains "Please add to your answer.", and score, feedback, strengths,
tags, grid, framework and modelAnswer are all null. -/
theorem C1_gate_shape (s : Str) (h : wordCount s < 50) :
    (App.markEthicsResponse s).gated = true ∧
    (App.markEthicsResponse s).wordCount = wordCount s ∧
    (App.markEthicsResponse s).message = some GATE_MESSAGE ∧
    hasSub GATE_MESSAGE (strL "Please add to your answer.") = true ∧
    (App.markEthicsResponse s).score = none ∧
    (App.markEthicsResponse s).feedback = none ∧
    (App.markEthicsResponse s).strengths = none ∧
    (App.markEthicsResponse s).tags = none ∧
    (App.markEthicsResponse s).grid = none ∧
    (App.markEthicsResponse s).framework = none ∧
    (App.markEthicsResponse s).modelAnswer = none := by
  simp only [App.markEthicsResponse]
  rw [if_pos h]
  exact ⟨rfl, rfl, rfl, by decide, rfl, rfl, rfl, rfl, rfl, rfl, rfl⟩

/-- Witness for C1 at the two-word input "too short". -/
theorem C1_witness : (App.markEthicsResponse WSHORT).gated = true ∧
    (App.markEthicsResponse WSHORT).modelAnswer = none :=
  ⟨(C1_gate_shape WSHORT (by decide)).1,
   (C1_gate_shape WSHORT (by decide)).2.2.2.2.2.2.2.2.2.2⟩

/-- C2: for every input with at least 50 words, the marker returns an
ungated result whose score is a natural number at most 10 (hence an
integer in [0,10]) and whose modelAnswer and framework equal the fixed
reference text and data verbatim. -/
theorem C2_ungated_shape (s : Str) (h : 50 ≤ wordCount s) :
    (App.markEthicsResponse s).gated = false ∧
    (∃ n : Nat, (App.markEthicsResponse s).score = some n ∧ n ≤ 10) ∧
    (App.markEthicsResponse s).modelAnswer = some MODEL_ANSWER ∧
    (App.markEthicsResponse s).framework = some App.FRAMEWORK := by
  simp only [App.markEthicsResponse]
  rw [if_neg (by omega)]
  refine ⟨rfl, ⟨max 0 (min 10 (App.rawScore s)), rfl, ?_⟩, rfl, rfl⟩
  exact max_le (by omega) (min_le_left _ _)

/-- Witness for C2 at a 50-word input. -/
theorem C2_witness : (App.markEthicsResponse W50).gated = false ∧
    (App.markEthicsResponse W50).modelAnswer = some MODEL_ANSWER :=
  ⟨(C2_ungated_shape W50 (by decide)).1, (C2_ungated_shape W50 (by decide)).2.2.1⟩

/-- C3: for every ungated input, the impact criterion awards exactly 3
points when (individuals AND harm) AND (trust OR fairness) hold, exactly
2 points when instead (individuals AND harm) OR trust OR fairness holds,
and exactly 1 point together with the improvement note otherwise; the
contribution is always at least 1. -/
theorem C3_impact_cases (s : Str) (h : 50 ≤ wordCount s) :
    (((mentionsIndividuals (lowerL s) && mentionsHarm (lowerL s)) &&
        (mentionsTrust (lowerL s) || App.mentionsFairness (lowerL s))) = true →
      (App.impactEval (lowerL s)).pts = 3) ∧
    (((mentionsIndividuals (lowerL s) && mentionsHarm (lowerL s)) &&
        (mentionsTrust (lowerL s) || App.mentionsFairness (lowerL s))) = false →
      ((mentionsIndividuals (lowerL s) && mentionsHarm (lowerL s)) ||
        mentionsTrust (lowerL s) || App.mentionsFairness (lowerL s)) = true →
      (App.impactEval (lowerL s)).pts = 2) ∧
    (((mentionsIndividuals (lowerL s) && mentionsHarm (lowerL s)) &&
        (mentionsTrust (lowerL s) || App.mentionsFairness (lowerL s))) = false →
      ((mentionsIndividuals (lowerL s) && mentionsHarm (lowerL s)) ||
        mentionsTrust (lowerL s) || App.mentionsFairness (lowerL s)) = false →
      (App.impactEval (lowerL s)).pts = 1 ∧
        (App.impactEval (lowerL s)).notes = [NOTE_IMPACT]) ∧
    1 ≤ (App.impactEval (lowerL s)).pts := by
  refine ⟨?_, ?_, ?_, ?_⟩
  · intro h3; simp [App.impactEval, h3]
  · intro h3 h2; simp [App.impactEval, h3, h2]
  · intro h3 h2; simp [App.impactEval, h3, h2]
  · unfold App.impactEval
    split
    · decide
    · split <;> decide

/-- Witness for C3 at a 50-word input with no impact detections (the
minimal-mention branch). -/
theorem C3_witness :
    (App.impactEval (lowerL W50)).pts = 1 ∧ (App.impactEval (lowerL W50)).notes = [NOTE_IMPACT] :=
  (C3_impact_cases W50 (by decide)).2.2.1 (by decide) (by decide)

/-- C6: for every ungated input, the raw sum of the five criterion awards
lies in [1,10], the clamp is the identity on it, and the returned score is
exactly the unclamped sum. -/
theorem C6_clamp_identity (s : Str) (h : 50 ≤ wordCount s) :
    1 ≤ App.rawScore s ∧ App.rawScore s ≤ 10 ∧
    max 0 (min 10 (App.rawScore s)) = App.rawScore s ∧
    (App.markEthicsResponse s).score = some (App.rawScore s) := by
  have hb : 1 ≤ App.rawScore s ∧ App.rawScore s ≤ 10 := by
    have h1 := failuresEval_pts_le (lowerL s)
    have h2 := impactEval_pts_bounds (lowerL s)
    have h3 := recsEval_pts_le (lowerL s) s
    have h4 := langEval_pts_le (lowerL s)
    have h5 := structureEval_pts_le (lowerL s)
    unfold App.rawScore
    omega
  have hclamp : max 0 (min 10 (App.rawScore s)) = App.rawScore s := by
    rw [min_eq_right hb.2]
    exact max_eq_right (Nat.zero_le _)
  refine ⟨hb.1, hb.2, hclamp, ?_⟩
  simp only [App.markEthicsResponse]
  rw [if_neg (by omega)]
  simp only [hclamp]

/-- Witness for C6 at a 50-word input (raw sum 1, returned unclamped). -/
theorem C6_witness : (App.markEthicsResponse W50).score = some (App.rawScore W50) :=
  (C6_clamp_identity W50 (by decide)).2.2.2

/-- C8: an answer matching zero failure themes contributes 0 failure
points; once an appended sentence makes the combined (still ungated) text
match exactly two themes, the contribution becomes 3 points. -/
theorem C8_failures_monotone (s₁ s₂ : Str)
    (h0 : App.themesFound (lowerL s₁) = 0)
    (h2 : App.themesFound (lowerL (s₁ ++ s₂)) = 2)
    (hg : 50 ≤ wordCount (s₁ ++ s₂)) :
    (App.failuresEval (lowerL s₁)).pts = 0 ∧ (App.failuresEval (lowerL (s₁ ++ s₂))).pts = 3 := by
  constructor
  · simp [App.failuresEval, h0]
  · simp [App.failuresEval, h2]

/-- Witness for C8: fifty neutral words, then " consent bias". -/
theorem C8_witness :
    (App.failuresEval (lowerL W50)).pts = 0 ∧
    (App.failuresEval (lowerL (W50 ++ C8add))).pts = 3 :=
  C8_failures_monotone W50 C8add (by decide) (by decide) (by decide)

/-- C9: for every ungated input with none of the structure markers, the
structure criterion scores 0 but its level is Developing (1), so the
"Structure & clarity" tag is "mid" and the grid structure row is the
Developing marker. -/
theorem C9_structure_developing (s : Str) (h : 50 ≤ wordCount s)
    (hns : hasStructure (lowerL s) = false) :
    (structureEval (lowerL s)).pts = 0 ∧
    (structureEval (lowerL s)).level = 1 ∧
    ((App.markEthicsResponse s).tags.getD [])[4]? =
      some ⟨strL "Structure & clarity", strL "mid"⟩ ∧
    ((App.markEthicsResponse s).grid.map Grid.structureRow) = some (strL "◐ Developing") := by
  refine ⟨by simp [structureEval, hns], by simp [structureEval, hns], ?_, ?_⟩
  · simp only [App.markEthicsResponse]
    rw [if_neg (by omega)]
    simp [structureEval, hns, App.tagStatus]
  · simp only [App.markEthicsResponse]
    rw [if_neg (by omega)]
    simp [structureEval, hns, App.statusFromLevel]

/-- Witness for C9 at a 50-word input with no structure markers. -/
theorem C9_witness :
    ((App.markEthicsResponse W50).grid.map Grid.structureRow) = some (strL "◐ Developing") :=
  (C9_structure_developing W50 (by decide) (by decide)).2.2.2

/-- C10: for every ungated input, the "Legal awareness" tag is never "mid"
and the grid legal row is never the Developing marker: the intermediate
branches test substrings that are all in the terminology list, so they are
unreachable when `usesTerms` is false. -/
theorem C10_legal_never_mid (s : Str) (h : 50 ≤ wordCount s) :
    (((App.markEthicsResponse s).tags.getD [])[1]?.map Tag.status) ≠ some (strL "mid") ∧
    ((App.markEthicsResponse s).grid.map Grid.legal) ≠ some (strL "◐ Developing") := by
  have key : usesTerms (lowerL s) = false →
      hasAny (lowerL s) [strL "consent", strL "privacy", strL "data protection"] = false := by
    intro hu
    simp only [usesTerms, hasAny, List.any_cons, List.any_nil,
      Bool.or_eq_false_iff] at hu ⊢
    exact ⟨hu.2.2.2.2.1, hu.2.2.2.1, hu.2.2.1, trivial⟩
  cases hu : usesTerms (lowerL s) with
  | true =>
    constructor <;>
      (simp only [App.markEthicsResponse]
       rw [if_neg (by omega)]
       simp [langEval, hu, App.tagStatus, App.statusFromLevel]
       decide)
  | false =>
    have hk := key hu
    constructor <;>
      (simp only [App.markEthicsResponse]
       rw [if_neg (by omega)]
       simp [langEval, hu, hk, App.tagStatus, App.statusFromLevel]
       decide)

/-- Witness for C10 at a 50-word input. -/
theorem C10_witness :
    ((App.markEthicsResponse W50).grid.map Grid.legal) ≠ some (strL "◐ Developing") :=
  (C10_legal_never_mid W50 (by decide)).2

/-- C5 (amended part): the two marker copies agree on the gated flag and
on the word count for every input. -/
theorem C5_gate_and_wordCount_agree (s : Str) :
    (Server.markEthicsResponse s).gated = (App.markEthicsResponse s).gated ∧
    (Server.markEthicsResponse s).wordCount = (App.markEthicsResponse s).wordCount := by
  simp only [Server.markEthicsResponse, App.markEthicsResponse]
  by_cases h : wordCount s < 50
  · rw [if_pos h, if_pos h]; exact ⟨rfl, rfl⟩
  · rw [if_neg h, if_neg h]; exact ⟨rfl, rfl⟩

set_option maxRecDepth 2000 in
/-- C5 counterexample: on a 52-word input containing "encryption" and
"consent", the `src/server.js` copy scores 4 while the richer copy scores
6 — the copies do not return the same score for every input. -/
theorem C5_counterexample :
    (Server.markEthicsResponse C5x).score ≠ (App.markEthicsResponse C5x).score := by
  decide

set_option maxRecDepth 2000 in
/-- C4 counterexample: a 60-word answer containing every substring the
claim lists (and standalone "action"/"should" words) nevertheless does not
score 10 — none of those substrings triggers the harm detector, so the
impact criterion awards only 2 points. -/
theorem C4_counterexample :
    wordCount C4x = 60 ∧
    (hasSub C4x (strL "consent") && hasSub C4x (strL "transparency") &&
     hasSub C4x (strL "bias") && hasSub C4x (strL "fairness") &&
     hasSub C4x (strL "trust") && hasSub C4x (strL "residents") &&
     hasSub C4x (strL "DPIA") && hasSub C4x (strL "action") &&
     hasSub C4x (strL "should") && hasSub C4x (strL "1)") &&
     hasSub C4x (strL "2)") && hasSub C4x (strL "3)")) = true ∧
    (App.markEthicsResponse C4x).score ≠ some 10 := by
  refine ⟨by decide, by decide, by decide⟩

set_option maxRecDepth 2000 in
/-- C4 (amended): such a 60-word answer evaluates ungated with score 9, a
strengths list of length 3, tag statuses ok/ok/mid/ok/ok (the Impact
evaluation tag is "mid", not "ok"), and the model answer verbatim. -/
theorem C4_amended_eval :
    (App.markEthicsResponse C4x).gated = false ∧
    wordCount C4x = 60 ∧
    (App.markEthicsResponse C4x).score = some 9 ∧
    ((App.markEthicsResponse C4x).strengths.getD []).length = 3 ∧
    ((App.markEthicsResponse C4x).tags.getD []).map Tag.status =
      [strL "ok", strL "ok", strL "mid", strL "ok", strL "ok"] ∧
    (App.markEthicsResponse C4x).modelAnswer = some MODEL_ANSWER := by
  refine ⟨by decide, by decide, by decide, by decide, by decide, rfl⟩

/-- C7: word counting is 0 on all-whitespace input, equals the number of
maximal non-whitespace runs, is invariant under leading/trailing
whitespace and under widening internal whitespace runs, and counts
"a  b   c" as 3. -/
theorem C7_wordCount_spec :
    (∀ s : Str, trim s = [] → wordCount s = 0) ∧
    (∀ s : Str, wordCount s = specRunCount s) ∧
    (∀ (pre s post : Str), (∀ c ∈ pre, isWS c = true) → (∀ c ∈ post, isWS c = true) →
      wordCount (pre ++ s ++ post) = wordCount s) ∧
    (∀ (xs ys : Str) (c c' : Char), isWS c = true → isWS c' = true →
      wordCount (xs ++ c :: c' :: ys) = wordCount (xs ++ c :: ys)) ∧
    wordCount (strL "a  b   c") = 3 := by
  refine ⟨?_, wordCount_eq_specRunCount, ?_, ?_, by decide⟩
  · intro s hs
    unfold wordCount
    simp [hs]
  · intro pre s post hpre hpost
    rw [wordCount_eq_specRunCount, wordCount_eq_specRunCount]
    show specRunCountAux false (pre ++ s ++ post) = specRunCountAux false s
    rw [List.append_assoc, specRunCountAux_ws_prefix pre hpre (s ++ post),
      specRunCountAux_append_allWS s post hpost false]
  · intro xs ys c c' hc hc'
    rw [wordCount_eq_specRunCount, wordCount_eq_specRunCount]
    exact specRunCountAux_widen xs false c c' ys hc hc'

/-- Witness for C7: surrounding whitespace is dropped and "a  b   c" has
three words. -/
theorem C7_witness :
    wordCount (strL " " ++ strL "a  b   c" ++ strL " ") = wordCount (strL "a  b   c") ∧
    wordCount (strL "a  b   c") = 3 :=
  ⟨C7_wordCount_spec.2.2.1 (strL " ") (strL "a  b   c") (strL " ") (by decide) (by decide),
   C7_wordCount_spec.2.2.2.2⟩

end Ethics




